import Mathlib

/-!
Verification of the artifact distribution and caching subsystem of the
Decentralized AI Model Marketplace backend.

The development shallowly embeds the Python sources:

* `src/backend/ipfs_service.py` — `IPFSService.download_file` (multi-gateway
  fetch with order-preserving deduplication), `IPFSService.unpin_all`
  (best-effort bulk unpin over the pinned list);
* `src/backend/model_manager.py` — `ModelManager` (registry, disk cache,
  in-memory cache): `add_model`, `get_model_info`, `get_cached_model_path`,
  `is_model_cached`, `download_model`, `load_model`;
* `src/backend/main.py` — the `PUT /api/models/{id}` update endpoint and the
  `POST /api/models/{id}/purchase` endpoint.

Python dictionaries holding registry records are embedded as a structure with
`Option` fields (`none` = key absent).  Remote effects (gateway responses, the
pinning provider, the format-specific deserializers) are parameters of the
embedded functions.  Machine-level detail that the claims do not touch (actual
byte I/O, JSON serialization) is represented by the byte lists that flow
through the functions.
-/

namespace DAMM

/-! ## IPFS service: multi-gateway download (`ipfs_service.py`, `download_file`) -/

/-- Outcome of one HTTP attempt against a single gateway URL, as observed by
`download_file`'s per-gateway `try` block:

* `noResponse` — `requests.get` raised, or the status code was not 200: the
  loop advances without touching the destination file;
* `midStream p` — status 200, the file was opened (truncating) and the bytes
  `p` were written before the streaming loop raised: the partial bytes remain
  at the destination when the loop advances;
* `success b` — status 200 and the full body `b` was written. -/
inductive GwAttempt where
  | noResponse : GwAttempt
  | midStream : List Nat → GwAttempt
  | success : List Nat → GwAttempt
deriving DecidableEq, Repr

/-- Order-preserving deduplication, as in `download_file`:
`gateways = [x for x in gateways if not (x in seen or seen.add(x))]`
(the first occurrence of each URL is kept). -/
def dedupKeepFirstGo : List String → List String → List String
  | [], _ => []
  | x :: xs, seen => if x ∈ seen then dedupKeepFirstGo xs seen else x :: dedupKeepFirstGo xs (x :: seen)

/-- Entry point of the order-preserving deduplication (empty `seen` set). -/
def dedupKeepFirst (l : List String) : List String := dedupKeepFirstGo l []

/-- The fixed fallback gateway URL prefixes of `download_file` (after the
configured primary gateway `IPFS_GATEWAY`). -/
def fallbackGateways : List String :=
  ["https://gateway.pinata.cloud/ipfs/", "https://ipfs.io/ipfs/", "https://cloudflare-ipfs.com/ipfs/"]

/-- The candidate URL list built by `download_file`: primary gateway first,
then the fixed fallbacks, deduplicated preserving order. -/
def gatewayCandidates (primary ipfsHash : String) : List String :=
  dedupKeepFirst (List.map (fun g => g ++ ipfsHash) (primary :: fallbackGateways))

/-- The gateway loop of `download_file`, threading the destination file state
(`none` = no file at `save_path`, `some b` = a file with bytes `b`).
`behavior` gives the outcome of the HTTP attempt for each candidate URL.
Returns the boolean result of `download_file` together with the final file
state: success stops the loop; a failure (of either kind) advances to the next
candidate; exhaustion returns `False` with whatever file state remains. -/
def downloadLoop (behavior : String → GwAttempt) : List String → Option (List Nat) → Bool × Option (List Nat)
  | [], file => (false, file)
  | u :: rest, file =>
    match behavior u with
    | GwAttempt.noResponse => downloadLoop behavior rest file
    | GwAttempt.midStream p => downloadLoop behavior rest (some p)
    | GwAttempt.success b => (true, some b)

/-- `IPFSService.download_file ipfs_hash save_path` over the candidate list
derived from the configured primary gateway. -/
def downloadFile (behavior : String → GwAttempt) (primary ipfsHash : String)
    (file : Option (List Nat)) : Bool × Option (List Nat) :=
  downloadLoop behavior (gatewayCandidates primary ipfsHash) file

/-- The sequence of URLs actually attempted by the gateway loop: every
candidate up to and including the first successful one. -/
def attemptedUrls (behavior : String → GwAttempt) : List String → List String
  | [] => []
  | u :: rest =>
    match behavior u with
    | GwAttempt.success _ => [u]
    | _ => u :: attemptedUrls behavior rest

/-! ## IPFS service: bulk unpin (`ipfs_service.py`, `unpin_all`) -/

/-- A row returned by Pinata's pin list, as consumed by `unpin_all`:
only the `ipfs_pin_hash` key is read (`file.get('ipfs_pin_hash')`,
`none` = key absent). -/
structure PinnedFile where
  ipfs_pin_hash : Option String
deriving DecidableEq, Repr

/-- The loop of `unpin_all`: for each row with a truthy `ipfs_pin_hash`,
attempt `unpin_file` (outcome given by `oracle`); count successes and collect
failed hashes in order.  Rows without a truthy hash are skipped. -/
def unpinAllLoop (oracle : String → Bool) : List PinnedFile → Nat × List String
  | [] => (0, [])
  | f :: rest =>
    match f.ipfs_pin_hash with
    | none => unpinAllLoop oracle rest
    | some h =>
      if h = "" then unpinAllLoop oracle rest
      else
        match unpinAllLoop oracle rest with
        | (c, l) => if oracle h then (c + 1, l) else (c, h :: l)

/-- `IPFSService.unpin_all`: list the pinned files, return `{"success": 0,
"failed": []}` when none, otherwise run the loop.  (The early return on an
empty list coincides with the loop's value on `[]`.) -/
def unpinAll (oracle : String → Bool) (pinnedFiles : List PinnedFile) : Nat × List String :=
  if pinnedFiles = [] then (0, []) else unpinAllLoop oracle pinnedFiles

/-- The failed identifiers `unpin_all` should report: the truthy hashes of the
pinned rows whose unpin fails, in order. -/
def failedHashes (oracle : String → Bool) (pinnedFiles : List PinnedFile) : List String :=
  List.filter (fun h => !(oracle h))
    (List.filter (fun h => !(h == "")) (List.filterMap (fun f => f.ipfs_pin_hash) pinnedFiles))

/-! ## Model manager: data model (`model_manager.py`) -/

/-- The `pricing` sub-dictionary of a registry record
(`{"per_hour": ..., "currency": ...}`).  Prices are embedded as integers;
the code only stores and copies them. -/
structure Pricing where
  per_hour : Option Int
  currency : Option String
deriving DecidableEq, Repr

/-- The `performance` sub-dictionary of a registry record
(`{"accuracy": ...}`). -/
structure Performance where
  accuracy : Option Int
deriving DecidableEq, Repr

/-- A registry record (a Python dict in `models_registry.json`).  Every field
is optional: `none` means the key is absent from the dict. -/
structure ModelRecord where
  id : Option String
  name : Option String
  description : Option String
  creator : Option String
  ipfs_hash : Option String
  model_type : Option String
  category : Option String
  uploaded_at : Option String
  downloads : Option Int
  tags : Option (List String)
  pricing : Option Pricing
  performance : Option Performance
deriving DecidableEq, Repr

/-- A record with every key absent, for building concrete registries. -/
def emptyRecord : ModelRecord :=
  ⟨none, none, none, none, none, none, none, none, none, none, none, none⟩

/-- The state held by `ModelManager` together with the disk cache directory:
`registry` is `self.registry['models']` (a JSON array, insertion order),
`loaded` is `self.loaded_models` (dict: model id → materialized handle),
`disk` is the cache directory (path → file bytes).  Handles and file contents
are byte lists; association lists give the dict/directory semantics (the most
recent binding for a key wins). -/
structure MMState where
  registry : List ModelRecord
  loaded : List (String × List Nat)
  disk : List (String × List Nat)
deriving DecidableEq, Repr

/-- `MODEL_CACHE_DIR` (default `./model_cache`). -/
def MODEL_CACHE_DIR : String := "./model_cache"

/-- The extension table of `get_cached_model_path`:
`{'keras': '.keras', 'h5': '.h5', 'pkl': '.pkl', 'pt': '.pt'}.get(t, '.keras')`. -/
def extensionFor (modelType : String) : String :=
  if modelType = "keras" then ".keras"
  else if modelType = "h5" then ".h5"
  else if modelType = "pkl" then ".pkl"
  else if modelType = "pt" then ".pt"
  else ".keras"

/-- The model types `load_model` can materialize (`keras`/`h5` via Keras,
`pkl` via pickle, `pt` via torch); any other type hits the
"Unsupported model type" branch. -/
def supportedTypes : List String := ["keras", "h5", "pkl", "pt"]

/-- `ModelManager.get_model_info`: scan the registry in order for the first
record with `model['id'] == model_id`.  Evaluating `model['id']` on a record
whose dict lacks the `id` key raises `KeyError`; the scan's exception is
embedded as `Except.error ()`. -/
def getModelInfo : List ModelRecord → String → Except Unit (Option ModelRecord)
  | [], _ => Except.ok none
  | r :: rest, mid =>
    match r.id with
    | none => Except.error ()
    | some i => if i = mid then Except.ok (some r) else getModelInfo rest mid

/-- The ids present in a registry (records lacking the `id` key contribute
nothing). -/
def registryIds (reg : List ModelRecord) : List String :=
  List.filterMap (fun r => r.id) reg

/-- Boolean well-formedness of a registry: every record has an `id` key.
(The upload endpoint always supplies one; `add_model` itself does not check.) -/
def registryWF (reg : List ModelRecord) : Bool :=
  List.all reg (fun r => r.id.isSome)

/-- The deterministic cache path for a model id and declared type:
`MODEL_CACHE_DIR / f"{model_id}{extension}"`. -/
def cachePath (mid modelType : String) : String :=
  MODEL_CACHE_DIR ++ "/" ++ mid ++ extensionFor modelType

/-- `ModelManager.get_cached_model_path`: `None` when the id is not in the
registry, otherwise the deterministic cache path derived from the record's
`model_type` (default `keras`, unknown types map to `.keras`).  A `KeyError`
from the registry scan propagates (the method has no `try`). -/
def getCachedModelPath (reg : List ModelRecord) (mid : String) : Except Unit (Option String) :=
  match getModelInfo reg mid with
  | Except.error e => Except.error e
  | Except.ok none => Except.ok none
  | Except.ok (some r) => Except.ok (some (cachePath mid (r.model_type.getD "keras")))

/-- Existence check for a path in the disk cache. -/
def diskHas (disk : List (String × List Nat)) (p : String) : Bool :=
  (disk.lookup p).isSome

/-- `ModelManager.is_model_cached`: `cache_path and cache_path.exists()`.
When `get_cached_model_path` returns `None` the conjunction short-circuits to
a falsy value; otherwise it is the existence of the file at the path. -/
def isModelCached (s : MMState) (mid : String) : Except Unit Bool :=
  match getCachedModelPath s.registry mid with
  | Except.error e => Except.error e
  | Except.ok none => Except.ok false
  | Except.ok (some p) => Except.ok (diskHas s.disk p)

/-! ## Model manager: registry mutation (`add_model`) -/

/-- Result of `ModelManager.add_model`: the boolean return value, the
in-memory registry afterwards (`self.registry['models']`), and the registry
content written to disk by `_save_registry` (`none` when `_save_registry` was
never reached). -/
structure AddOut where
  ret : Bool
  registry : List ModelRecord
  saved : Option (List ModelRecord)
deriving DecidableEq, Repr

/-- `ModelManager.add_model model_info`: inside a `try`, set `uploaded_at` if
absent (`now` is the current timestamp), append the record to the registry,
persist via `_save_registry`, then print a message that evaluates
`model_info['id']` — which raises `KeyError` when the record has no `id` key,
so the `except` branch returns `False` with the append and the save already
done.  No duplicate-id check is performed anywhere. -/
def addModel (now : String) (reg : List ModelRecord) (rec : ModelRecord) : AddOut :=
  let rec1 := if rec.uploaded_at = none then { rec with uploaded_at := some now } else rec
  let reg1 := reg ++ [rec1]
  match rec1.id with
  | none => ⟨false, reg1, some reg1⟩
  | some _ => ⟨true, reg1, some reg1⟩

/-! ## Model manager: download and load (`download_model`, `load_model`) -/

/-- Abstraction of one `ipfs_service.download_file(hash, path)` run as seen
from `ModelManager.download_model`: either the full bytes are written at the
path (`ok`), or the run fails, leaving the path untouched (`fail none`, no
gateway ever streamed) or holding partial bytes (`fail (some p)`, a gateway
failed mid-stream and the remaining candidates failed). -/
inductive FetchOutcome where
  | ok : List Nat → FetchOutcome
  | fail : Option (List Nat) → FetchOutcome
deriving DecidableEq, Repr

/-- The remote and runtime collaborators of `ModelManager`:
`fetch` gives the outcome of `download_file` per content hash;
`mat` is the format-specific materializer (Keras/pickle/torch loader), mapping
the declared model type and the cached file's bytes to a handle, or failing
(deserialization exception). -/
structure Env where
  fetch : String → FetchOutcome
  mat : String → List Nat → Option (List Nat)

/-- Result of `ModelManager.download_model`: boolean return, state, and
instrumentation counting `ipfs_service.download_file` invocations
(network fetches) and writes to the cache path. -/
structure DlOut where
  ok : Bool
  state : MMState
  fetchCalls : Nat
  diskWrites : Nat
deriving DecidableEq, Repr

/-- `ModelManager.download_model model_id` (all inside a `try` whose `except`
returns `False`): registry miss → `False`; no truthy `ipfs_hash` → `False`;
cache file already present → `True` without fetching; otherwise one
`download_file` call whose outcome determines result and file state. -/
def downloadModel (env : Env) (s : MMState) (mid : String) : DlOut :=
  match getModelInfo s.registry mid with
  | Except.error _ => ⟨false, s, 0, 0⟩
  | Except.ok none => ⟨false, s, 0, 0⟩
  | Except.ok (some r) =>
    match r.ipfs_hash with
    | none => ⟨false, s, 0, 0⟩
    | some h =>
      if h = "" then ⟨false, s, 0, 0⟩
      else
        if diskHas s.disk (cachePath mid (r.model_type.getD "keras")) then ⟨true, s, 0, 0⟩
        else
          match env.fetch h with
          | FetchOutcome.ok bytes =>
            ⟨true, { s with disk := (cachePath mid (r.model_type.getD "keras"), bytes) :: s.disk }, 1, 1⟩
          | FetchOutcome.fail none => ⟨false, s, 1, 0⟩
          | FetchOutcome.fail (some part) =>
            ⟨false, { s with disk := (cachePath mid (r.model_type.getD "keras"), part) :: s.disk }, 1, 1⟩

/-- Result of `ModelManager.load_model`: the returned handle (`none` on any
failure), the state, and instrumentation counting network fetches, cache-path
writes, and insertions into the in-memory cache `loaded_models`. -/
structure LoadOut where
  result : Option (List Nat)
  state : MMState
  fetchCalls : Nat
  diskWrites : Nat
  memPuts : Nat
deriving DecidableEq, Repr

/-- The tail of `load_model` after the cache is ensured (`# Load the model`
onwards): read the file at the cache path and materialize it according to the
declared type.  Unsupported types return `None`; a missing file or a loader
exception is caught by `load_model`'s `except` and returns `None`; on success
the handle is stored in `loaded_models` and returned.  `fc`/`dw` carry the
instrumentation counts accumulated by the download phase. -/
def materializeStep (env : Env) (s1 : MMState) (mid ty p : String) (fc dw : Nat) : LoadOut :=
  if ty ∈ supportedTypes then
    match s1.disk.lookup p with
    | none => ⟨none, s1, fc, dw, 0⟩
    | some bytes =>
      match env.mat ty bytes with
      | none => ⟨none, s1, fc, dw, 0⟩
      | some hdl => ⟨some hdl, { s1 with loaded := (mid, hdl) :: s1.loaded }, fc, dw, 1⟩
  else ⟨none, s1, fc, dw, 0⟩

/-- `ModelManager.load_model model_id` (all inside a `try` whose `except`
returns `None`): memory-cache hit returns the stored handle immediately;
registry miss (or a `KeyError` from a malformed record, caught by the
`except`) returns `None`; a disk-cache miss first runs `download_model`,
returning `None` on its failure; then the materialization tail
(`materializeStep`) runs. -/
def loadModel (env : Env) (s : MMState) (mid : String) : LoadOut :=
  match s.loaded.lookup mid with
  | some m => ⟨some m, s, 0, 0, 0⟩
  | none =>
    match getModelInfo s.registry mid with
    | Except.error _ => ⟨none, s, 0, 0, 0⟩
    | Except.ok none => ⟨none, s, 0, 0, 0⟩
    | Except.ok (some r) =>
      if diskHas s.disk (cachePath mid (r.model_type.getD "keras")) then
        materializeStep env s mid (r.model_type.getD "keras")
          (cachePath mid (r.model_type.getD "keras")) 0 0
      else if (downloadModel env s mid).ok then
        materializeStep env (downloadModel env s mid).state mid (r.model_type.getD "keras")
          (cachePath mid (r.model_type.getD "keras")) (downloadModel env s mid).fetchCalls
          (downloadModel env s mid).diskWrites
      else
        ⟨none, (downloadModel env s mid).state, (downloadModel env s mid).fetchCalls,
          (downloadModel env s mid).diskWrites, 0⟩

/-! ## API layer (`main.py`): update and purchase endpoints -/

/-- The method names defined by `class ModelManager` in `model_manager.py`.
Neither `update_model` nor `delete_model` is among them, although `main.py`
invokes both on the `model_manager` instance; such an invocation raises
`AttributeError` at the call site. -/
def managerMethodNames : List String :=
  ["__init__", "_load_registry", "_save_registry", "add_model", "get_model_info",
   "list_models", "get_cached_model_path", "is_model_cached", "download_model",
   "load_model", "unload_model", "clear_cache"]

/-- The optional form fields of the `PUT /api/models/{model_id}` endpoint. -/
structure UpdatePatch where
  name : Option String
  description : Option String
  category : Option String
  price_per_hour : Option Int
  payment_currency : Option String
  tags : Option String
  accuracy : Option Int
deriving DecidableEq, Repr

/-- A patch with every field absent. -/
def emptyPatch : UpdatePatch := ⟨none, none, none, none, none, none, none⟩

/-- Python's `str.lower()` (character-wise lowering, as the wallet addresses
and creator names compared by the endpoints use it). -/
def pyLower (s : String) : String := String.mk (s.data.map Char.toLower)

/-- `[tag.strip() for tag in tags.split(',')]`. -/
def splitTags (s : String) : List String :=
  List.map (fun t => t.trim) (s.splitOn ",")

/-- The field mutations the update endpoint applies in place to the record
dict returned by `get_model_info` (string fields are set only when truthy,
numeric fields when not `None`; `pricing` and `performance` sub-dicts are
created on demand). -/
def applyPatch (r : ModelRecord) (p : UpdatePatch) : ModelRecord :=
  let r := match p.name with
    | some s => if s = "" then r else { r with name := some s }
    | none => r
  let r := match p.description with
    | some s => if s = "" then r else { r with description := some s }
    | none => r
  let r := match p.category with
    | some s => if s = "" then r else { r with category := some s }
    | none => r
  let r := match p.price_per_hour with
    | some v =>
      let pr := r.pricing.getD ⟨none, none⟩
      { r with pricing := some { pr with per_hour := some v } }
    | none => r
  let r := match p.payment_currency with
    | some s =>
      if s = "" then r
      else
        let pr := r.pricing.getD ⟨none, none⟩
        { r with pricing := some { pr with currency := some s } }
    | none => r
  let r := match p.tags with
    | some s => if s = "" then r else { r with tags := some (splitTags s) }
    | none => r
  let r := match p.accuracy with
    | some v => { r with performance := some ⟨some v⟩ }
    | none => r
  r

/-- In-place mutation of the dict object returned by `get_model_info`:
the first record whose `id` matches is replaced (it is the same object the
scan returned, so only the first occurrence is affected). -/
def replaceFirstById : List ModelRecord → String → ModelRecord → List ModelRecord
  | [], _, _ => []
  | r :: rest, mid, nr =>
    if r.id = some mid then nr :: rest else r :: replaceFirstById rest mid nr

/-- Outcome of the `PUT /api/models/{model_id}` endpoint as seen by the
client: 404 when the id is absent, 403 on an owner mismatch, a 500 from the
`AttributeError` raised by the nonexistent `model_manager.update_model`
(after the record has already been mutated in place), or a 500 from a
`KeyError` during the registry scan. -/
inductive UpdateOutcome where
  | notFound404 : UpdateOutcome
  | forbidden403 : UpdateOutcome
  | attributeError500 : UpdateOutcome
  | keyError500 : UpdateOutcome
  | success : ModelRecord → UpdateOutcome
deriving DecidableEq, Repr

/-- The `update_model` endpoint of `main.py` (lines 317–372): look the record
up (404 when absent), check `model_info.get('creator','').lower() !=
wallet_address.lower()` (403), mutate the record dict in place, then call
`model_manager.update_model(model_id, model_info)` — a method `ModelManager`
does not define, so the call raises `AttributeError` and the endpoint answers
500 while the in-memory registry retains the mutation. -/
def updateEndpoint (reg : List ModelRecord) (mid wallet : String) (p : UpdatePatch) :
    UpdateOutcome × List ModelRecord :=
  match getModelInfo reg mid with
  | Except.error _ => (UpdateOutcome.keyError500, reg)
  | Except.ok none => (UpdateOutcome.notFound404, reg)
  | Except.ok (some r) =>
    if pyLower (r.creator.getD "") ≠ pyLower wallet then (UpdateOutcome.forbidden403, reg)
    else
      let r1 := applyPatch r p
      let reg1 := replaceFirstById reg mid r1
      if "update_model" ∈ managerMethodNames then (UpdateOutcome.success r1, reg1)
      else (UpdateOutcome.attributeError500, reg1)

/-- Outcome of the `POST /api/models/{model_id}/purchase` endpoint: 404 when
the id is absent, 500 (`"Purchase failed"`) when the download fails or when
the subsequent `model_manager.update_model` call raises `AttributeError`
inside the endpoint's `try`, or a 500 from a `KeyError` during the initial
registry scan (which happens outside the `try`). -/
inductive PurchaseOutcome where
  | notFound404 : PurchaseOutcome
  | failed500 : PurchaseOutcome
  | keyError500 : PurchaseOutcome
  | success : PurchaseOutcome
deriving DecidableEq, Repr

/-- The `purchase_model` endpoint of `main.py` (lines 419–456): look the
record up (404 when absent), run `download_model`; on its failure answer 500;
on its success increment `model_info['downloads']` in place (mutating the
registry record) and call `model_manager.update_model` — which does not exist,
so the `except` turns the `AttributeError` into a 500 answer while the
incremented counter remains in the in-memory registry. -/
def purchaseEndpoint (env : Env) (s : MMState) (mid : String) : PurchaseOutcome × MMState :=
  match getModelInfo s.registry mid with
  | Except.error _ => (PurchaseOutcome.keyError500, s)
  | Except.ok none => (PurchaseOutcome.notFound404, s)
  | Except.ok (some r) =>
    let d := downloadModel env s mid
    if d.ok = false then (PurchaseOutcome.failed500, d.state)
    else
      let r1 := { r with downloads := some (r.downloads.getD 0 + 1) }
      let s1 := { d.state with registry := replaceFirstById d.state.registry mid r1 }
      if "update_model" ∈ managerMethodNames then (PurchaseOutcome.success, s1)
      else (PurchaseOutcome.failed500, s1)

/-! ## Concrete fixtures for witnesses and counterexamples -/

/-- A registered record: id `m1`, owner `alice`, content hash `Qm1`,
zero downloads, default (`keras`) type. -/
def recAlice : ModelRecord :=
  { emptyRecord with
      id := some "m1", creator := some "alice", ipfs_hash := some "Qm1", downloads := some 0 }

/-- A one-record registry. -/
def regAlice : List ModelRecord := [recAlice]

/-- A cold manager state over `regAlice`: nothing loaded, nothing on disk. -/
def coldState : MMState := ⟨regAlice, [], []⟩

/-- An environment whose fetches all succeed with bytes `[1, 2, 3]` and whose
materializer returns the file bytes as the handle. -/
def envOkFetch : Env := ⟨fun _ => FetchOutcome.ok [1, 2, 3], fun _ b => some b⟩

/-- An environment whose fetches all fail leaving the partial bytes `[7]` at
the destination (a gateway responded 200 and then failed mid-stream, and the
remaining candidates failed). -/
def envMidStreamFetch : Env := ⟨fun _ => FetchOutcome.fail (some [7]), fun _ b => some b⟩

/-- A gateway behavior for a fetch through the custom primary gateway
`https://custom/`: the primary responds 200 for hash `Qm` and dies mid-stream
after the byte `[7]`; every other gateway yields no response. -/
def behaviorMidStream : String → GwAttempt :=
  fun u => if u = "https://custom/Qm" then GwAttempt.midStream [7] else GwAttempt.noResponse

/-- A gateway behavior where no gateway ever responds. -/
def behaviorAllDown : String → GwAttempt := fun _ => GwAttempt.noResponse

/-- An unpin oracle that succeeds exactly on hash `a`. -/
def oracleOnlyA : String → Bool := fun h => h == "a"

/-- The number of records in a registry carrying a given id. -/
def countId (reg : List ModelRecord) (i : String) : Nat :=
  (reg.filter (fun r => r.id == some i)).length

/-! ## Supporting lemmas -/

/-- A successful registry scan witnesses membership of the id. -/
theorem getModelInfo_ok_some_mem {reg : List ModelRecord} {mid : String} {r : ModelRecord}
    (h : getModelInfo reg mid = Except.ok (some r)) : mid ∈ registryIds reg := by
  induction reg with
  | nil => simp [getModelInfo] at h
  | cons r0 rest ih =>
    cases hid : r0.id with
    | none => simp [getModelInfo, hid] at h
    | some i =>
      by_cases hi : i = mid
      · simp [registryIds, hid, hi]
      · simp only [getModelInfo, hid, if_neg hi] at h
        simp only [registryIds, List.filterMap_cons, hid]
        exact List.mem_cons_of_mem _ (by simpa [registryIds] using ih h)

/-- On a well-formed registry, an id that is not present scans to `ok none`. -/
theorem getModelInfo_of_not_mem {reg : List ModelRecord} {mid : String}
    (hwf : registryWF reg = true) (hmid : mid ∉ registryIds reg) :
    getModelInfo reg mid = Except.ok none := by
  induction reg with
  | nil => simp [getModelInfo]
  | cons r0 rest ih =>
    simp only [registryWF, List.all_cons, Bool.and_eq_true] at hwf
    cases hid : r0.id with
    | none => rw [hid] at hwf; simp at hwf
    | some i =>
      have hi : i ≠ mid := by
        intro he
        exact hmid (by simp [registryIds, hid, he])
      simp only [getModelInfo, hid, if_neg hi]
      exact ih hwf.2 (fun hm => hmid (by simp [registryIds, hid]; right; simpa [registryIds] using hm))

/-! ## Claim C1 -/

/-- C1 (code bug): the update endpoint does answer 404 (`NotFound`) for an id
absent from the registry, but for a present id with a matching owner the call
`model_manager.update_model(model_id, model_info)` raises `AttributeError`
(`ModelManager` defines no `update_model` method), so the endpoint fails with
a 500 instead of applying the update — after having already mutated the
record in place. -/
theorem updateEndpoint_update_model_missing :
    (updateEndpoint regAlice "m2" "alice" emptyPatch).1 = UpdateOutcome.notFound404 ∧
    (updateEndpoint regAlice "m1" "alice" { emptyPatch with name := some "NewName" }).1 =
      UpdateOutcome.attributeError500 ∧
    (updateEndpoint regAlice "m1" "alice" { emptyPatch with name := some "NewName" }).2 =
      [{ recAlice with name := some "NewName" }] := by
  refine ⟨by decide, by decide, by decide⟩

/-! ## Claim C2 -/

/-- C2 counterexample: adding a record whose id `m1` already exists in the
registry does not fail with a duplicate-id error and does not leave the
registry unchanged — `add_model` returns `True` and the registry afterwards
holds two records with id `m1`. -/
theorem addModel_duplicate_counterexample :
    (addModel "t1" regAlice { emptyRecord with id := some "m1" }).ret = true ∧
    countId (addModel "t1" regAlice { emptyRecord with id := some "m1" }).registry "m1" = 2 := by
  refine ⟨by decide, by decide⟩

/-- C2 amended: `add_model` performs no duplicate-id check.  For every record
whose dict has an `id` key it returns `True` and appends the record (with
`uploaded_at` defaulted) to the registry, so the number of entries carrying
that id always grows by one — a second add of an existing id yields two
entries. -/
theorem addModel_appends_unconditionally (now : String) (reg : List ModelRecord)
    (rec : ModelRecord) (i : String) (hid : rec.id = some i) :
    (addModel now reg rec).ret = true ∧
    (addModel now reg rec).registry =
      reg ++ [if rec.uploaded_at = none then { rec with uploaded_at := some now } else rec] ∧
    countId (addModel now reg rec).registry i = countId reg i + 1 := by
  have hid1 : (if rec.uploaded_at = none then { rec with uploaded_at := some now } else rec).id
      = some i := by
    by_cases h : rec.uploaded_at = none <;> simp [h, hid]
  refine ⟨?_, ?_, ?_⟩
  · simp only [addModel]
    rw [hid1]
  · simp only [addModel]
    rw [hid1]
  · simp only [addModel]
    rw [hid1]
    simp [countId, List.filter_append, hid1]

/-- C2 amended, witness: a concrete duplicate add over the one-record
registry `regAlice`. -/
theorem addModel_appends_unconditionally_witness :
    ({ emptyRecord with id := some "m1" } : ModelRecord).id = some "m1" ∧
    (addModel "t1" regAlice { emptyRecord with id := some "m1" }).ret = true ∧
    (addModel "t1" regAlice { emptyRecord with id := some "m1" }).registry =
      regAlice ++ [{ emptyRecord with id := some "m1", uploaded_at := some "t1" }] ∧
    countId (addModel "t1" regAlice { emptyRecord with id := some "m1" }).registry "m1" =
      countId regAlice "m1" + 1 := by
  refine ⟨by decide, ?_⟩
  have h := addModel_appends_unconditionally "t1" regAlice
    { emptyRecord with id := some "m1" } "m1" (by decide)
  refine ⟨h.1, ?_, h.2.2⟩
  rw [h.2.1]
  decide

/-! ## Claim C4 -/

/-- C4 (code bug): a purchase on a registered model whose download succeeds
increments the in-memory `downloads` counter, then the call to the
nonexistent `model_manager.update_model` raises `AttributeError`, caught by
the endpoint's `except`, so the operation reports failure (500) while the
counter has changed from 0 to 1. -/
theorem purchaseEndpoint_increment_on_failure :
    (purchaseEndpoint envOkFetch coldState "m1").1 = PurchaseOutcome.failed500 ∧
    (purchaseEndpoint envOkFetch coldState "m1").2.registry.map (fun r => r.downloads) =
      [some 1] := by
  refine ⟨by decide, by decide⟩

/-! ## Claim C9 -/

/-- C9: `add_model` is not atomic on failure.  Called with a record lacking
the `id` key, it first appends the record (timestamped) to the in-memory
registry and persists it via `_save_registry`, and only then fails (the
success message evaluates `model_info['id']`, raising `KeyError`), so it
returns `False` while both the in-memory and the saved registry retain the
malformed record. -/
theorem addModel_missing_id_not_atomic (now : String) (reg : List ModelRecord)
    (rec : ModelRecord) (hid : rec.id = none) :
    (addModel now reg rec).ret = false ∧
    (addModel now reg rec).registry =
      reg ++ [if rec.uploaded_at = none then { rec with uploaded_at := some now } else rec] ∧
    (addModel now reg rec).saved = some ((addModel now reg rec).registry) := by
  have hid1 : (if rec.uploaded_at = none then { rec with uploaded_at := some now } else rec).id
      = none := by
    by_cases h : rec.uploaded_at = none <;> simp [h, hid]
  refine ⟨?_, ?_, ?_⟩ <;> simp only [addModel] <;> rw [hid1]

/-- C9 witness: adding the empty record (no `id`, no `uploaded_at`) to the
empty registry. -/
theorem addModel_missing_id_not_atomic_witness :
    (emptyRecord.id = none) ∧
    (addModel "t0" [] emptyRecord).ret = false ∧
    (addModel "t0" [] emptyRecord).registry = [{ emptyRecord with uploaded_at := some "t0" }] ∧
    (addModel "t0" [] emptyRecord).saved = some ((addModel "t0" [] emptyRecord).registry) := by
  have h := addModel_missing_id_not_atomic "t0" [] emptyRecord (by decide)
  refine ⟨by decide, h.1, ?_, h.2.2⟩
  rw [h.2.1]
  decide

/-! ## Claim C3 -/

/-- The gateway loop leaves the destination file untouched when no candidate
ever responds (no 200 is received, so the file is never opened). -/
theorem downloadLoop_all_noResponse (behavior : String → GwAttempt) (l : List String)
    (file : Option (List Nat)) (hall : ∀ u ∈ l, behavior u = GwAttempt.noResponse) :
    downloadLoop behavior l file = (false, file) := by
  induction l with
  | nil => rfl
  | cons u rest ih =>
    have hu := hall u (List.mem_cons_self u rest)
    simp only [downloadLoop, hu]
    exact ih (fun v hv => hall v (List.mem_cons_of_mem u hv))

/-- C3 counterexample: a fetch through the custom primary gateway
`https://custom/` in which the primary responds 200 and dies mid-stream after
writing the byte `7`, and every fallback yields no response, terminates in
failure (`download_file` returns `False`) yet leaves the partial file at the
destination path; correspondingly, after the manager's `download_model` fails
the same way on the cold state, `is_model_cached` reports the model as
present.  This refutes "no half-written file exists at the destination path
afterwards". -/
theorem downloadFile_halfwritten_counterexample :
    downloadFile behaviorMidStream "https://custom/" "Qm" none = (false, some [7]) ∧
    (downloadModel envMidStreamFetch coldState "m1").ok = false ∧
    isModelCached (downloadModel envMidStreamFetch coldState "m1").state "m1" = Except.ok true := by
  refine ⟨by decide, by decide, by rfl⟩

/-- C3 amended: a fetch that terminates in failure without any gateway having
begun streaming (every candidate fails before a 200 response) retains no
partial state — the destination file is exactly as before, so a later
`is_model_cached` check answers as it did before.  A gateway failing
mid-stream after a 200, however, leaves its partial bytes observable at the
canonical path (the code streams directly to the destination with no
temporary-file-then-rename step). -/
theorem downloadFile_untouched_without_stream (behavior : String → GwAttempt)
    (primary ipfsHash : String) (file : Option (List Nat))
    (hall : ∀ u ∈ gatewayCandidates primary ipfsHash, behavior u = GwAttempt.noResponse) :
    downloadFile behavior primary ipfsHash file = (false, file) :=
  downloadLoop_all_noResponse behavior (gatewayCandidates primary ipfsHash) file hall

/-- C3 amended, witness: all gateways down, pre-existing file `[9]` at the
destination survives the failed fetch unchanged. -/
theorem downloadFile_untouched_without_stream_witness :
    (∀ u ∈ gatewayCandidates "https://p/" "Qm", behaviorAllDown u = GwAttempt.noResponse) ∧
    downloadFile behaviorAllDown "https://p/" "Qm" (some [9]) = (false, some [9]) := by
  refine ⟨fun u _ => rfl, ?_⟩
  exact downloadFile_untouched_without_stream behaviorAllDown "https://p/" "Qm" (some [9])
    (fun u _ => rfl)

/-! ## Claim C5 -/

/-- The `unpin_all` loop, on rows that all carry a truthy hash, returns the
failed hashes in order and a success count complementing them to the row
count. -/
theorem unpinAllLoop_spec (oracle : String → Bool) (files : List PinnedFile)
    (hwf : ∀ f ∈ files, ∃ h, f.ipfs_pin_hash = some h ∧ h ≠ "") :
    (unpinAllLoop oracle files).2 = failedHashes oracle files ∧
    (unpinAllLoop oracle files).1 + (failedHashes oracle files).length = files.length := by
  induction files with
  | nil => simp [unpinAllLoop, failedHashes]
  | cons f rest ih =>
    obtain ⟨h, hh, hne⟩ := hwf f (List.mem_cons_self f rest)
    have ihr := ih (fun g hg => hwf g (List.mem_cons_of_mem f hg))
    have hfail : failedHashes oracle (f :: rest) =
        if oracle h then failedHashes oracle rest else h :: failedHashes oracle rest := by
      simp only [failedHashes, List.filterMap_cons, hh]
      by_cases ho : oracle h <;>
        simp [List.filter_cons, hne, ho]
    simp only [unpinAllLoop, hh, if_neg hne]
    by_cases ho : oracle h <;>
      simp_all [hfail, ho] <;> omega

/-- C5: `unpin_all` over a provider state of `K` pinned rows, each carrying a
(truthy) pin hash, attempts every row without aborting early: the failed list
is exactly the hashes whose individual unpin fails, in order, and the success
count is `K − M` where `M` is the number of failures (equivalently, success
count plus failures equals `K`).  With all unpins succeeding this is
`(K, [])`. -/
theorem unpinAll_tally (oracle : String → Bool) (files : List PinnedFile)
    (hwf : ∀ f ∈ files, ∃ h, f.ipfs_pin_hash = some h ∧ h ≠ "") :
    (unpinAll oracle files).2 = failedHashes oracle files ∧
    (unpinAll oracle files).1 + (failedHashes oracle files).length = files.length ∧
    (unpinAll oracle files).1 = files.length - (failedHashes oracle files).length := by
  by_cases hempty : files = []
  · subst hempty
    simp [unpinAll, failedHashes]
  · have h := unpinAllLoop_spec oracle files hwf
    simp only [unpinAll, if_neg hempty]
    exact ⟨h.1, h.2, by omega⟩

/-- C5 witness: two pinned rows `a`, `b`; the oracle succeeds only on `a`:
one success and failed list `["b"]`. -/
theorem unpinAll_tally_witness :
    (∀ f ∈ [PinnedFile.mk (some "a"), PinnedFile.mk (some "b")],
      ∃ h, f.ipfs_pin_hash = some h ∧ h ≠ "") ∧
    (unpinAll oracleOnlyA [PinnedFile.mk (some "a"), PinnedFile.mk (some "b")]).2 =
      failedHashes oracleOnlyA [PinnedFile.mk (some "a"), PinnedFile.mk (some "b")] ∧
    (unpinAll oracleOnlyA [PinnedFile.mk (some "a"), PinnedFile.mk (some "b")]).1 +
      (failedHashes oracleOnlyA [PinnedFile.mk (some "a"), PinnedFile.mk (some "b")]).length = 2 ∧
    unpinAll oracleOnlyA [PinnedFile.mk (some "a"), PinnedFile.mk (some "b")] = (1, ["b"]) := by
  have hwf : ∀ f ∈ [PinnedFile.mk (some "a"), PinnedFile.mk (some "b")],
      ∃ h, f.ipfs_pin_hash = some h ∧ h ≠ "" := by
    intro f hf
    simp only [List.mem_cons, List.not_mem_nil, or_false] at hf
    rcases hf with rfl | rfl
    · exact ⟨"a", rfl, by decide⟩
    · exact ⟨"b", rfl, by decide⟩
  have h := unpinAll_tally oracleOnlyA [PinnedFile.mk (some "a"), PinnedFile.mk (some "b")] hwf
  exact ⟨hwf, h.1, h.2.1, by decide⟩

/-! ## Claim C6

The memory cache is only ever populated by `load_model` after a successful
registry lookup, and no `ModelManager` operation removes a registry entry
(the `delete_model` the API layer tries to call does not exist), so every
reachable state satisfies: each id held in `loaded_models` is registered.
The frame theorem takes that invariant as a hypothesis; the lemmas after it
show the operations preserve it. -/

/-- `download_model` touches only the disk cache: registry and memory cache
are returned unchanged on every path. -/
theorem downloadModel_frame (env : Env) (s : MMState) (mid : String) :
    (downloadModel env s mid).state.registry = s.registry ∧
    (downloadModel env s mid).state.loaded = s.loaded := by
  unfold downloadModel
  repeat' split
  all_goals simp [apply_ite]

/-- C6: on any state satisfying the memory-registry invariant, `load_model`
of an id absent from the registry returns `None` and performs no effect at
all: the state (registry, memory cache, disk cache) is returned exactly as it
was, with zero fetches, zero disk writes and zero memory-cache insertions. -/
theorem loadModel_unregistered_frame (env : Env) (s : MMState) (mid : String)
    (hinv : ∀ k, (s.loaded.lookup k).isSome = true → k ∈ registryIds s.registry)
    (hmid : mid ∉ registryIds s.registry) :
    loadModel env s mid = ⟨none, s, 0, 0, 0⟩ := by
  have hmem : s.loaded.lookup mid = none := by
    cases hl : s.loaded.lookup mid with
    | none => rfl
    | some v => exact absurd (hinv mid (by rw [hl]; rfl)) hmid
  cases hg : getModelInfo s.registry mid with
  | error e => simp [loadModel, hmem, hg]
  | ok o =>
    cases o with
    | none => simp [loadModel, hmem, hg]
    | some r => exact absurd (getModelInfo_ok_some_mem hg) hmid

/-- C6 witness: the cold one-record state, resolved at the unregistered id
`zz`. -/
theorem loadModel_unregistered_frame_witness :
    ("zz" ∉ registryIds coldState.registry) ∧
    loadModel envOkFetch coldState "zz" = ⟨none, coldState, 0, 0, 0⟩ := by
  refine ⟨by decide, ?_⟩
  exact loadModel_unregistered_frame envOkFetch coldState "zz"
    (fun k hk => by simp [coldState, List.lookup] at hk) (by decide)

/-- `add_model` only appends: registered ids are preserved (the memory cache
is untouched by it), so the memory-registry invariant survives adds. -/
theorem registryIds_addModel_mono (now : String) (reg : List ModelRecord) (rec : ModelRecord) :
    ∀ k ∈ registryIds reg, k ∈ registryIds (addModel now reg rec).registry := by
  intro k hk
  simp only [addModel]
  repeat' split
  all_goals simp only [registryIds, List.filterMap_append, List.mem_append]
  all_goals exact Or.inl hk

/-- The materialization tail never mutates the registry. -/
theorem materializeStep_registry_frame (env : Env) (s1 : MMState) (mid ty p : String)
    (fc dw : Nat) : (materializeStep env s1 mid ty p fc dw).state.registry = s1.registry := by
  unfold materializeStep
  repeat' split
  all_goals rfl

/-- The materialization tail leaves the memory cache untouched or extends it
with one entry for the requested id. -/
theorem materializeStep_loaded_cases (env : Env) (s1 : MMState) (mid ty p : String)
    (fc dw : Nat) :
    (materializeStep env s1 mid ty p fc dw).state.loaded = s1.loaded ∨
    ∃ hdl, (materializeStep env s1 mid ty p fc dw).state.loaded = (mid, hdl) :: s1.loaded := by
  unfold materializeStep
  repeat' split
  all_goals simp

/-- `load_model` never mutates the registry. -/
theorem loadModel_registry_frame (env : Env) (s : MMState) (mid : String) :
    (loadModel env s mid).state.registry = s.registry := by
  have hdl := (downloadModel_frame env s mid).1
  unfold loadModel
  repeat' split
  all_goals simp_all [materializeStep_registry_frame]

/-- The memory cache after `load_model` is either untouched, or extended with
one entry for the requested id, whose registry lookup just succeeded. -/
theorem loadModel_loaded_cases (env : Env) (s : MMState) (mid : String) :
    (loadModel env s mid).state.loaded = s.loaded ∨
    (mid ∈ registryIds s.registry ∧
      ∃ hdl, (loadModel env s mid).state.loaded = (mid, hdl) :: s.loaded) := by
  have hdf := (downloadModel_frame env s mid).2
  unfold loadModel
  repeat' split
  · exact Or.inl rfl
  · exact Or.inl rfl
  · exact Or.inl rfl
  · rename_i r hg hdisk
    rcases materializeStep_loaded_cases env s mid (r.model_type.getD "keras")
        (cachePath mid (r.model_type.getD "keras")) 0 0 with h | ⟨hdl, h⟩
    · exact Or.inl h
    · exact Or.inr ⟨getModelInfo_ok_some_mem hg, hdl, h⟩
  · rename_i r hg hdisk hok
    rcases materializeStep_loaded_cases env (downloadModel env s mid).state mid
        (r.model_type.getD "keras") (cachePath mid (r.model_type.getD "keras"))
        (downloadModel env s mid).fetchCalls (downloadModel env s mid).diskWrites with h | ⟨hdl, h⟩
    · exact Or.inl (by rw [h, hdf])
    · exact Or.inr ⟨getModelInfo_ok_some_mem hg, hdl, by rw [h, hdf]⟩
  · exact Or.inl hdf

/-- `load_model` preserves the memory-registry invariant: the registry is
never mutated, and the only memory-cache insertion stores an id whose
registry lookup just succeeded. -/
theorem loadModel_preserves_inv (env : Env) (s : MMState) (mid : String)
    (hinv : ∀ k, (s.loaded.lookup k).isSome = true → k ∈ registryIds s.registry) :
    ∀ k, ((loadModel env s mid).state.loaded.lookup k).isSome = true →
      k ∈ registryIds (loadModel env s mid).state.registry := by
  intro k hk
  rw [loadModel_registry_frame]
  rcases loadModel_loaded_cases env s mid with hsame | ⟨hmid, hdl, hcons⟩
  · exact hinv k (by rwa [hsame] at hk)
  · rw [hcons] at hk
    by_cases hkm : k = mid
    · rwa [hkm]
    · refine hinv k ?_
      have hbeq : (k == mid) = false := by simp [hkm]
      simp only [List.lookup, hbeq] at hk
      exact hk

/-! ## Claim C7 -/

/-- C7: resolution is idempotent on a cold registered id.  On a state where
`mid` is registered with a truthy content hash, is not in the memory cache and
has no cache file on disk, and where the fetch and the materializer succeed,
the first `load_model` performs exactly one network fetch, one disk-cache
write and one memory-cache insertion and returns the handle; the second
`load_model` on the resulting state returns the same handle with zero
fetches, zero disk writes, and zero insertions, leaving the state identical. -/
theorem loadModel_cold_idempotent (env : Env) (s : MMState) (mid : String) (r : ModelRecord)
    (h : String) (bytes hdl : List Nat)
    (hmem : s.loaded.lookup mid = none)
    (hg : getModelInfo s.registry mid = Except.ok (some r))
    (hhash : r.ipfs_hash = some h) (hne : h ≠ "")
    (hcold : s.disk.lookup (cachePath mid (r.model_type.getD "keras")) = none)
    (hfetch : env.fetch h = FetchOutcome.ok bytes)
    (hty : r.model_type.getD "keras" ∈ supportedTypes)
    (hmat : env.mat (r.model_type.getD "keras") bytes = some hdl) :
    loadModel env s mid =
      ⟨some hdl,
        ⟨s.registry, (mid, hdl) :: s.loaded,
          (cachePath mid (r.model_type.getD "keras"), bytes) :: s.disk⟩, 1, 1, 1⟩ ∧
    loadModel env
        ⟨s.registry, (mid, hdl) :: s.loaded,
          (cachePath mid (r.model_type.getD "keras"), bytes) :: s.disk⟩ mid =
      ⟨some hdl,
        ⟨s.registry, (mid, hdl) :: s.loaded,
          (cachePath mid (r.model_type.getD "keras"), bytes) :: s.disk⟩, 0, 0, 0⟩ := by
  have hdisk : diskHas s.disk (cachePath mid (r.model_type.getD "keras")) = false := by
    simp [diskHas, hcold]
  have hdlEq : downloadModel env s mid =
      ⟨true, ⟨s.registry, s.loaded,
        (cachePath mid (r.model_type.getD "keras"), bytes) :: s.disk⟩, 1, 1⟩ := by
    simp only [downloadModel, hg, hhash, hfetch, hdisk, if_neg hne, Bool.false_eq_true, if_false]
  constructor
  · simp only [loadModel, hmem, hg, hdisk, Bool.false_eq_true, if_false, hdlEq,
      materializeStep, hty, if_pos, List.lookup, beq_self_eq_true, hmat]
  · simp only [loadModel, List.lookup, beq_self_eq_true]

/-- C7 witness: the cold one-record state resolved twice at `m1` under the
always-successful environment. -/
theorem loadModel_cold_idempotent_witness :
    (coldState.loaded.lookup "m1" = none) ∧
    (getModelInfo coldState.registry "m1" = Except.ok (some recAlice)) ∧
    (recAlice.ipfs_hash = some "Qm1") ∧
    (coldState.disk.lookup (cachePath "m1" (recAlice.model_type.getD "keras")) = none) ∧
    (envOkFetch.fetch "Qm1" = FetchOutcome.ok [1, 2, 3]) ∧
    (envOkFetch.mat (recAlice.model_type.getD "keras") [1, 2, 3] = some [1, 2, 3]) ∧
    loadModel envOkFetch coldState "m1" =
      ⟨some [1, 2, 3],
        ⟨coldState.registry, [("m1", [1, 2, 3])],
          [(cachePath "m1" (recAlice.model_type.getD "keras"), [1, 2, 3])]⟩, 1, 1, 1⟩ ∧
    loadModel envOkFetch
        ⟨coldState.registry, [("m1", [1, 2, 3])],
          [(cachePath "m1" (recAlice.model_type.getD "keras"), [1, 2, 3])]⟩ "m1" =
      ⟨some [1, 2, 3],
        ⟨coldState.registry, [("m1", [1, 2, 3])],
          [(cachePath "m1" (recAlice.model_type.getD "keras"), [1, 2, 3])]⟩, 0, 0, 0⟩ := by
  have h := loadModel_cold_idempotent envOkFetch coldState "m1" recAlice "Qm1" [1, 2, 3] [1, 2, 3]
    (by rfl) (by rfl) (by rfl) (by decide) (by rfl) (by rfl) (by decide) (by rfl)
  exact ⟨by rfl, by rfl, by rfl, by rfl, by rfl, by rfl, h.1, h.2⟩

/-! ## Claim C8 -/

/-- Appending the same suffix to strings of different lengths yields
different strings (used to separate the fixed gateway URLs). -/
theorem append_ne_append_right {a b : String} (hne : a.length ≠ b.length) (t : String) :
    a ++ t ≠ b ++ t := by
  intro he
  apply hne
  have hl := congrArg String.length he
  simp only [String.length_append] at hl
  omega

/-- Elements produced by the deduplication pass are never in the seen set. -/
theorem mem_dedupKeepFirstGo_not_seen {x : String} :
    ∀ {l seen : List String}, x ∈ dedupKeepFirstGo l seen → x ∉ seen := by
  intro l
  induction l with
  | nil => intro seen hx; simp [dedupKeepFirstGo] at hx
  | cons u rest ih =>
    intro seen hx
    by_cases hu : u ∈ seen
    · exact ih (by simpa [dedupKeepFirstGo, hu] using hx)
    · simp only [dedupKeepFirstGo, if_neg hu, List.mem_cons] at hx
      rcases hx with rfl | hx
      · exact hu
      · have := ih hx
        intro hxs
        exact this (List.mem_cons_of_mem u hxs)

/-- Every URL the gateway loop attempts comes from its candidate list. -/
theorem mem_attemptedUrls {behavior : String → GwAttempt} {x : String} :
    ∀ {l : List String}, x ∈ attemptedUrls behavior l → x ∈ l := by
  intro l
  induction l with
  | nil => intro hx; simp [attemptedUrls] at hx
  | cons u rest ih =>
    intro hx
    simp only [attemptedUrls] at hx
    cases hb : behavior u with
    | success b =>
      rw [hb] at hx
      simp only [List.mem_singleton] at hx
      exact hx ▸ List.mem_cons_self u rest
    | noResponse =>
      rw [hb] at hx
      rcases List.mem_cons.mp hx with rfl | hx
      · exact List.mem_cons_self x rest
      · exact List.mem_cons_of_mem u (ih hx)
    | midStream p =>
      rw [hb] at hx
      rcases List.mem_cons.mp hx with rfl | hx
      · exact List.mem_cons_self x rest
      · exact List.mem_cons_of_mem u (ih hx)

/-- C8: when the configured primary gateway equals one of the fixed fallback
gateways, the deduplicated candidate list of a fetch has only three entries
(the duplicate collapsed), the primary's URL is the first one attempted, and
the gateway loop attempts that URL exactly once, whatever the gateways do. -/
theorem gatewayCandidates_primary_once (primary ipfsHash : String)
    (behavior : String → GwAttempt) (hp : primary ∈ fallbackGateways) :
    (gatewayCandidates primary ipfsHash).length = 3 ∧
    (attemptedUrls behavior (gatewayCandidates primary ipfsHash)).head? =
      some (primary ++ ipfsHash) ∧
    (attemptedUrls behavior (gatewayCandidates primary ipfsHash)).count (primary ++ ipfsHash)
      = 1 := by
  have hstruct : gatewayCandidates primary ipfsHash =
      (primary ++ ipfsHash) ::
        dedupKeepFirstGo (List.map (fun g => g ++ ipfsHash) fallbackGateways)
          [primary ++ ipfsHash] := by
    simp [gatewayCandidates, dedupKeepFirst, dedupKeepFirstGo]
  have hnotin : primary ++ ipfsHash ∉
      dedupKeepFirstGo (List.map (fun g => g ++ ipfsHash) fallbackGateways)
        [primary ++ ipfsHash] := by
    intro hmem
    exact mem_dedupKeepFirstGo_not_seen hmem (List.mem_singleton.mpr rfl)
  have hlen : (gatewayCandidates primary ipfsHash).length = 3 := by
    simp only [fallbackGateways, List.mem_cons, List.not_mem_nil, or_false] at hp
    have hio : ("https://ipfs.io/ipfs/" ++ ipfsHash) ≠
        ("https://gateway.pinata.cloud/ipfs/" ++ ipfsHash) :=
      append_ne_append_right (by decide) ipfsHash
    have hcfp : ("https://cloudflare-ipfs.com/ipfs/" ++ ipfsHash) ≠
        ("https://gateway.pinata.cloud/ipfs/" ++ ipfsHash) :=
      append_ne_append_right (by decide) ipfsHash
    have hcfio : ("https://cloudflare-ipfs.com/ipfs/" ++ ipfsHash) ≠
        ("https://ipfs.io/ipfs/" ++ ipfsHash) :=
      append_ne_append_right (by decide) ipfsHash
    have hpio : ("https://gateway.pinata.cloud/ipfs/" ++ ipfsHash) ≠
        ("https://ipfs.io/ipfs/" ++ ipfsHash) :=
      append_ne_append_right (by decide) ipfsHash
    have hpcf : ("https://gateway.pinata.cloud/ipfs/" ++ ipfsHash) ≠
        ("https://cloudflare-ipfs.com/ipfs/" ++ ipfsHash) :=
      append_ne_append_right (by decide) ipfsHash
    have hiocf : ("https://ipfs.io/ipfs/" ++ ipfsHash) ≠
        ("https://cloudflare-ipfs.com/ipfs/" ++ ipfsHash) :=
      append_ne_append_right (by decide) ipfsHash
    rcases hp with rfl | rfl | rfl <;>
      simp [gatewayCandidates, dedupKeepFirst, dedupKeepFirstGo, fallbackGateways,
        hio, hcfp, hcfio, hpio, hpcf, hiocf]
  refine ⟨hlen, ?_, ?_⟩
  · rw [hstruct]
    simp only [attemptedUrls]
    cases hb : behavior (primary ++ ipfsHash) <;> simp
  · rw [hstruct]
    simp only [attemptedUrls]
    cases hb : behavior (primary ++ ipfsHash) with
    | success b => simp
    | noResponse =>
      have hzero : (attemptedUrls behavior
          (dedupKeepFirstGo (List.map (fun g => g ++ ipfsHash) fallbackGateways)
            [primary ++ ipfsHash])).count (primary ++ ipfsHash) = 0 :=
        List.count_eq_zero.mpr (fun hmem => hnotin (mem_attemptedUrls hmem))
      simp [List.count_cons, hzero]
    | midStream p =>
      have hzero : (attemptedUrls behavior
          (dedupKeepFirstGo (List.map (fun g => g ++ ipfsHash) fallbackGateways)
            [primary ++ ipfsHash])).count (primary ++ ipfsHash) = 0 :=
        List.count_eq_zero.mpr (fun hmem => hnotin (mem_attemptedUrls hmem))
      simp [List.count_cons, hzero]

/-- C8 witness: the primary gateway set to the `ipfs.io` fallback; only three
candidates, the primary's URL attempted first and exactly once. -/
theorem gatewayCandidates_primary_once_witness :
    ("https://ipfs.io/ipfs/" ∈ fallbackGateways) ∧
    (gatewayCandidates "https://ipfs.io/ipfs/" "Qm").length = 3 ∧
    (attemptedUrls behaviorAllDown (gatewayCandidates "https://ipfs.io/ipfs/" "Qm")).head? =
      some ("https://ipfs.io/ipfs/" ++ "Qm") ∧
    (attemptedUrls behaviorAllDown
        (gatewayCandidates "https://ipfs.io/ipfs/" "Qm")).count ("https://ipfs.io/ipfs/" ++ "Qm")
      = 1 := by
  have h := gatewayCandidates_primary_once "https://ipfs.io/ipfs/" "Qm" behaviorAllDown
    (by decide)
  exact ⟨by decide, h.1, h.2.1, h.2.2⟩

/-! ## Claim C10 -/

/-- C10: on a well-formed registry, an id that is not registered has no cache
path (`get_cached_model_path` answers `None`) and `is_model_cached` answers
false for it whatever files exist in the cache directory; for a registered
id the path is determined solely by the id and the record's declared
`model_type` (defaulting to `keras`); and every unrecognized type maps to the
`.keras` extension. -/
theorem getCachedModelPath_spec (s : MMState) (mid : String)
    (hwf : registryWF s.registry = true) :
    (mid ∉ registryIds s.registry →
      getCachedModelPath s.registry mid = Except.ok none ∧
      isModelCached s mid = Except.ok false) ∧
    (∀ r, getModelInfo s.registry mid = Except.ok (some r) →
      getCachedModelPath s.registry mid =
        Except.ok (some (cachePath mid (r.model_type.getD "keras")))) ∧
    (∀ t, t ∉ supportedTypes → extensionFor t = ".keras") := by
  refine ⟨?_, ?_, ?_⟩
  · intro hmid
    have hg := getModelInfo_of_not_mem hwf hmid
    constructor
    · simp [getCachedModelPath, hg]
    · simp [isModelCached, getCachedModelPath, hg]
  · intro r hr
    simp [getCachedModelPath, hr]
  · intro t ht
    simp only [supportedTypes, List.mem_cons, List.not_mem_nil, or_false, not_or] at ht
    obtain ⟨h1, h2, h3, h4⟩ := ht
    simp [extensionFor, h1, h2, h3, h4]

/-- C10 witness: the unregistered id `zz` with a stray file
`./model_cache/zz.keras` present in the cache directory, plus the unknown
type `weird`. -/
theorem getCachedModelPath_spec_witness :
    (registryWF regAlice = true) ∧
    ("zz" ∉ registryIds regAlice) ∧
    getCachedModelPath regAlice "zz" = Except.ok none ∧
    isModelCached ⟨regAlice, [], [("./model_cache/zz.keras", [1])]⟩ "zz" = Except.ok false ∧
    getCachedModelPath regAlice "m1" =
      Except.ok (some (cachePath "m1" (recAlice.model_type.getD "keras"))) ∧
    extensionFor "weird" = ".keras" := by
  have h := getCachedModelPath_spec ⟨regAlice, [], [("./model_cache/zz.keras", [1])]⟩ "zz"
    (by decide)
  have habs := h.1 (by decide)
  have h2 := getCachedModelPath_spec ⟨regAlice, [], []⟩ "m1" (by decide)
  exact ⟨by decide, by decide, habs.1, habs.2, h2.2.1 recAlice (by rfl),
    h2.2.2 "weird" (by decide)⟩

end DAMM
